import Mathlib

/-!
Shallow embedding of the go-logging package (src/logging/log.go) and proofs
of the behavioural claims about it.

The embedding follows the source function by function:

* `LogSeverity`, the severity constants, `LogType`, `Logger`, `Log`,
  `LogConfig` mirror the type declarations of log.go.
* `logStrings` / `getLogTypeString` mirror the label table and its lookup
  (log.go lines 90-101).  Go indexes a slice with the uint16 expression
  `severity/10 - 1`; out-of-range indexing panics, which the embedding
  renders as `none`.  The uint16 wrap-around of the subtraction is made
  explicit in `logIndex`.
* `sprintf` models Go fmt positional formatting as used here: a verb is a
  percent sign followed by one character and consumes one pre-rendered
  argument, a doubled percent sign renders a literal percent sign, and the
  surplus/missing argument markers of the fmt package are kept abstractly.
* `writeMessage` / `writeMessagef` mirror log.go lines 179-193.  The
  observable behaviour is, per logger in order, the line handed to the
  underlying writer for this emit (`none` when the logger filtered the
  message out); a panic of the label lookup makes the whole result `none`.
* `FS` is an explicit file-system state (files with contents, directories)
  with fault-injection sets so that the error paths of `os.Stat`,
  `os.Create`, `os.Rename` and `os.MkdirAll` can be exercised.
* `createLogDir`, `createLogFile`, `SetupLoggers` mirror log.go 107-177,
  with `time.Now()` passed in explicitly as a `DateTime` and the Go time
  layout "20060102150405" embedded as `formatTimestamp`.
-/

namespace GoLogging

/-- log.go:21 `type LogSeverity uint16`.  Modelled as `Nat`; the one place
where uint16 wrap-around matters (the label index) applies it explicitly. -/
abbrev LogSeverity := Nat

/-- log.go:25 -/
def Fatal : LogSeverity := 10
/-- log.go:27 -/
def Error : LogSeverity := 20
/-- log.go:29 -/
def Warning : LogSeverity := 30
/-- log.go:31 -/
def Information : LogSeverity := 40
/-- log.go:33 -/
def Debug : LogSeverity := 50
/-- log.go:35 -/
def Verbose : LogSeverity := 60

/-- log.go:39-46 `type LogType byte` with the `File` and `Screen` targets. -/
inductive LogType where
  | file
  | screen
deriving Repr, DecidableEq

/-- log.go:49-54 `Logger`.  The raw writer handle is not part of the state;
what an emit hands to that writer is the observable output modelled by
`writeMessage` below.  `pfx` is the line marker field of the source. -/
structure Logger where
  severity : LogSeverity
  logType : LogType
  pfx : String
deriving Repr, DecidableEq

/-- log.go:57-59 `Log` holds the ordered logger sequence. -/
structure Log where
  loggers : List Logger
deriving Repr, DecidableEq

/-- log.go:90-97 the fixed label table, each label 7 characters wide. -/
def logStrings : List String :=
  ["FATAL  ", "ERROR  ", "WARNING", "INFO   ", "DEBUG  ", "VERBOSE"]

/-- The uint16 value of `severity/10 - 1` computed in log.go:100.  For
`severity = 0` the subtraction wraps to 65535. -/
def logIndex (severity : LogSeverity) : Nat :=
  (severity / 10 + 65535) % 65536

/-- log.go:99-101 `getLogTypeString`.  Go panics when the index is out of
range of `logStrings`; the embedding returns `none` in that case. -/
def getLogTypeString (severity : LogSeverity) : Option String :=
  logStrings.get? (logIndex severity)

/-- Modelled from Go stdlib `fmt`: positional formatting with pre-rendered
string arguments.  A percent sign followed by one character is a verb and
consumes the next argument; a doubled percent sign is a literal percent
sign; surplus arguments and missing arguments produce the EXTRA/MISSING
markers of the fmt package (kept abstract: only their presence matters). -/
def sprintfAux : List Char → List String → List Char
  | [], args =>
    if args.isEmpty then []
    else ("%!(EXTRA " ++ String.intercalate ", " args ++ ")").data
  | c :: rest, args =>
    if c = '%' then
      match rest, args with
      | [], _ => "%!(NOVERB)".data
      | '%' :: rest2, _ => '%' :: sprintfAux rest2 args
      | _ :: rest2, [] => "%!(MISSING)".data ++ sprintfAux rest2 []
      | _ :: rest2, a :: tail => a.data ++ sprintfAux rest2 tail
    else c :: sprintfAux rest args

/-- Modelled from Go stdlib `fmt.Sprintf`; see `sprintfAux`. -/
def sprintf (f : String) (args : List String) : String :=
  ⟨sprintfAux f.data args⟩

/-- log.go:179-185 `writeMessage`.  The result records, per logger of the
sequence and in order, the line written to that logger target for this
emit (`some line`) or `none` when `lg.severity >= severity` fails.  The
whole result is `none` when the label lookup panics at a qualifying
logger. -/
def writeMessage : List Logger → LogSeverity → String → Option (List (Option String))
  | [], _, _ => some []
  | lg :: rest, severity, msg =>
    if severity ≤ lg.severity then
      match getLogTypeString severity with
      | none => none
      | some lbl =>
        (writeMessage rest severity msg).map
          (fun out => some (sprintf "%s %s" [lbl, msg]) :: out)
    else
      (writeMessage rest severity msg).map (fun out => none :: out)

/-- log.go:187-193 `writeMessagef`: the format string handed to the raw
writer is `Sprintf("%s %s", label, msg)` and the caller arguments are then
applied to it. -/
def writeMessagef : List Logger → LogSeverity → String → List String → Option (List (Option String))
  | [], _, _, _ => some []
  | lg :: rest, severity, msg, args =>
    if severity ≤ lg.severity then
      match getLogTypeString severity with
      | none => none
      | some lbl =>
        (writeMessagef rest severity msg args).map
          (fun out => some (sprintf (sprintf "%s %s" [lbl, msg]) args) :: out)
    else
      (writeMessagef rest severity msg args).map (fun out => none :: out)

/-- The public emit operations of log.go:196-258, each delegating to
`writeMessage` at its fixed severity constant. -/
def Log.Fatal (l : Log) (msg : String) : Option (List (Option String)) :=
  writeMessage l.loggers GoLogging.Fatal msg

/-- log.go:201-203 -/
def Log.Fatalf (l : Log) (msg : String) (args : List String) : Option (List (Option String)) :=
  writeMessagef l.loggers GoLogging.Fatal msg args

/-- log.go:206-208 -/
def Log.Error (l : Log) (msg : String) : Option (List (Option String)) :=
  writeMessage l.loggers GoLogging.Error msg

/-- log.go:211-213 -/
def Log.Errorf (l : Log) (msg : String) (args : List String) : Option (List (Option String)) :=
  writeMessagef l.loggers GoLogging.Error msg args

/-- log.go:216-218 `Errore` logs the textual description of an error value
at error severity. -/
def Log.Errore (l : Log) (errText : String) : Option (List (Option String)) :=
  l.Error errText

/-- log.go:221-223 -/
def Log.Warning (l : Log) (msg : String) : Option (List (Option String)) :=
  writeMessage l.loggers GoLogging.Warning msg

/-- log.go:226-228 -/
def Log.Warningf (l : Log) (msg : String) (args : List String) : Option (List (Option String)) :=
  writeMessagef l.loggers GoLogging.Warning msg args

/-- log.go:231-233 -/
def Log.Info (l : Log) (msg : String) : Option (List (Option String)) :=
  writeMessage l.loggers Information msg

/-- log.go:236-238 -/
def Log.Infof (l : Log) (msg : String) (args : List String) : Option (List (Option String)) :=
  writeMessagef l.loggers Information msg args

/-- log.go:241-243 -/
def Log.Debug (l : Log) (msg : String) : Option (List (Option String)) :=
  writeMessage l.loggers GoLogging.Debug msg

/-- log.go:246-248 -/
def Log.Debugf (l : Log) (msg : String) (args : List String) : Option (List (Option String)) :=
  writeMessagef l.loggers GoLogging.Debug msg args

/-- log.go:251-253 -/
def Log.Verbose (l : Log) (msg : String) : Option (List (Option String)) :=
  writeMessage l.loggers GoLogging.Verbose msg

/-- log.go:256-258 -/
def Log.Verbosef (l : Log) (msg : String) (args : List String) : Option (List (Option String)) :=
  writeMessagef l.loggers GoLogging.Verbose msg args

/-! ## File-system model -/

/-- Errors of the modelled file-system operations.  `isNotExist` below plays
the role of `os.IsNotExist`. -/
inductive FsErr where
  | notExist (p : String)
  | permission (p : String)
  | renameErr (a b : String)
  | createErr (p : String)
  | mkdirErr (p : String)
deriving Repr, DecidableEq

/-- Modelled from Go stdlib `os.IsNotExist`. -/
def FsErr.isNotExist : FsErr → Bool
  | .notExist _ => true
  | _ => false

/-- The textual description carried into the wrapped setup errors. -/
def FsErr.message : FsErr → String
  | .notExist p => p ++ ": no such file or directory"
  | .permission p => p ++ ": permission denied"
  | .renameErr a b => "rename " ++ a ++ " " ++ b ++ ": failed"
  | .createErr p => "open " ++ p ++ ": failed"
  | .mkdirErr p => "mkdir " ++ p ++ ": failed"

/-- Explicit file-system state: files with their contents, directories, and
fault-injection sets that make `os.Stat` fail with a non-notExist error,
`os.Rename`, `os.Create` or `os.MkdirAll` fail, so that every error path of
the source can be exercised. -/
structure FS where
  files : List (String × String)
  dirs : List String
  statFault : List String
  renameFault : List (String × String)
  createFault : List String
  mkdirFault : List String
deriving Repr, DecidableEq

/-- Content recorded for path `p` in a file-entry list. -/
def lookupL (files : List (String × String)) (p : String) : Option String :=
  (files.find? (fun e => e.1 == p)).map (fun e => e.2)

/-- Content of the file at `p`, `none` when no such file exists. -/
def FS.lookup (fs : FS) (p : String) : Option String :=
  lookupL fs.files p

/-- Whether a file exists at `p`. -/
def FS.fileExists (fs : FS) (p : String) : Bool :=
  fs.files.any (fun e => e.1 == p)

/-- Whether anything (file or directory) exists at `p`. -/
def FS.pathExists (fs : FS) (p : String) : Bool :=
  fs.fileExists p || fs.dirs.contains p

/-- Number of file entries recorded at path `p`. -/
def countKey (files : List (String × String)) (p : String) : Nat :=
  files.countP (fun e => e.1 == p)

/-- Modelled from Go stdlib `os.Stat`: a path in `statFault` fails with a
permission error, otherwise success iff something exists at the path. -/
def FS.stat (fs : FS) (p : String) : Except FsErr Unit :=
  if fs.statFault.contains p then .error (.permission p)
  else if fs.pathExists p then .ok ()
  else .error (.notExist p)

/-- Record content `v` at path `p`, replacing any previous entry. -/
def setFile (files : List (String × String)) (p v : String) : List (String × String) :=
  (p, v) :: files.filter (fun e => e.1 != p)

/-- Modelled from Go stdlib `os.Create`: create-or-truncate, yielding an
empty file at `p`. -/
def FS.create (fs : FS) (p : String) : Except FsErr FS :=
  if fs.createFault.contains p then .error (.createErr p)
  else .ok { fs with files := setFile fs.files p "" }

/-- Modelled from Go stdlib `os.Rename`: move the file at `old` to `new`,
replacing any file already at `new`. -/
def FS.rename (fs : FS) (old new : String) : Except FsErr FS :=
  if fs.renameFault.contains (old, new) then .error (.renameErr old new)
  else
    match fs.lookup old with
    | none => .error (.notExist old)
    | some c => .ok { fs with files := setFile (fs.files.filter (fun e => e.1 != old)) new c }

/-- Modelled from Go stdlib `os.MkdirAll` (ancestor creation elided: the
claims never inspect ancestors). -/
def FS.mkdirAll (fs : FS) (p : String) : Except FsErr FS :=
  if fs.mkdirFault.contains p then .error (.mkdirErr p)
  else .ok { fs with dirs := p :: fs.dirs }

/-- log.go:107-116 `createLogDir`: stat the directory; only when the stat
error is a notExist error is the directory created; any other stat error
falls through to the final `return nil`. -/
def createLogDir (fs : FS) (p : String) : Except FsErr FS :=
  match fs.stat p with
  | .error err => if err.isNotExist then fs.mkdirAll p else .ok fs
  | .ok _ => .ok fs

/-- log.go:118-136 `createLogFile`.  The timestamp string that Go computes
inline from `time.Now()` is passed in as `ts`. -/
def createLogFile (fs : FS) (logFilePath : String) (rotate : Bool) (ts : String) : Except FsErr FS :=
  match fs.stat logFilePath with
  | .error err =>
    if err.isNotExist then fs.create logFilePath
    else .error err
  | .ok _ =>
    if rotate then
      match fs.rename logFilePath (logFilePath ++ "." ++ ts) with
      | .error e => .error e
      | .ok fs1 => fs1.create logFilePath
    else fs.create logFilePath

/-! ## Timestamps -/

/-- A wall-clock instant, standing for Go `time.Now()`. -/
structure DateTime where
  year : Nat
  month : Nat
  day : Nat
  hour : Nat
  minute : Nat
  second : Nat
deriving Repr, DecidableEq

/-- The decimal digit character for `n % 10`-style values. -/
def digitChar (n : Nat) : Char :=
  Char.ofNat (48 + n)

/-- Two-digit zero-padded decimal rendering (as used by Go layout "01"). -/
def pad2 (n : Nat) : List Char :=
  [digitChar (n / 10 % 10), digitChar (n % 10)]

/-- Four-digit zero-padded decimal rendering (as used by Go layout "2006"). -/
def pad4 (n : Nat) : List Char :=
  [digitChar (n / 1000 % 10), digitChar (n / 100 % 10),
   digitChar (n / 10 % 10), digitChar (n % 10)]

/-- Modelled from Go stdlib `time.Format` with the fixed layout
"20060102150405" used at log.go:129. -/
def formatTimestamp (t : DateTime) : String :=
  ⟨pad4 t.year ++ pad2 t.month ++ pad2 t.day ++
   pad2 t.hour ++ pad2 t.minute ++ pad2 t.second⟩

/-! ## Configuration and setup -/

instance {ε α : Type} [DecidableEq ε] [DecidableEq α] : DecidableEq (Except ε α)
  | .error a, .error b =>
    if h : a = b then .isTrue (congrArg Except.error h)
    else .isFalse (fun hh => h (Except.error.inj hh))
  | .error _, .ok _ => .isFalse (fun hh => Except.noConfusion hh)
  | .ok _, .error _ => .isFalse (fun hh => Except.noConfusion hh)
  | .ok a, .ok b =>
    if h : a = b then .isTrue (congrArg Except.ok h)
    else .isFalse (fun hh => h (Except.ok.inj hh))

/-- One entry of log.go:80-88 `LogConfig.Loggers`. -/
structure ConfigEntry where
  logType : String
  severity : LogSeverity
  rotate : Bool
  path : String
  pfx : String
deriving Repr, DecidableEq

/-- log.go:80-88 `LogConfig`.  A Go nil slice and an empty slice are both
the empty list. -/
structure LogConfig where
  loggers : List ConfigEntry
deriving Repr, DecidableEq

/-- Modelled from Go stdlib `strings.ToLower` on its ASCII fragment. -/
def lowerChar (c : Char) : Char :=
  if 'A' ≤ c ∧ c ≤ 'Z' then Char.ofNat (c.toNat + 32) else c

/-- Modelled from Go stdlib `strings.ToLower` on its ASCII fragment. -/
def lowerString (s : String) : String :=
  ⟨s.data.map lowerChar⟩

/-- Split a character list at every slash. -/
def splitSlash : List Char → List (List Char)
  | [] => [[]]
  | c :: rest =>
    let r := splitSlash rest
    if c = '/' then [] :: r
    else (c :: r.headD []) :: r.tail

/-- Modelled from Go stdlib `path.Dir`, without the Clean normalisation
(no claim inspects the value). -/
def dirOf (p : String) : String :=
  let parts := (splitSlash p.data).map (fun cs => (⟨cs⟩ : String))
  if parts.length ≤ 1 then "." else String.intercalate "/" parts.dropLast

/-- The kind switch of log.go:146-153: the entry kind lowercased must be
"file" or "screen", anything else is the `%s is invalid log type` error
naming the original string. -/
def resolveKind (s : String) : Except String LogType :=
  match lowerString s with
  | "file" => .ok .file
  | "screen" => .ok .screen
  | _ => .error (s ++ " is invalid log type")

/-- The body of one iteration of the setup loop, log.go:144-173: resolve
the kind, then for a file sink create the directory and the log file,
wrapping failures with the step prefix of the source.  The returned state
keeps whatever the iteration already created before a failure. -/
def buildLogger (now : DateTime) (fs : FS) (item : ConfigEntry) : FS × Except String Logger :=
  match resolveKind item.logType with
  | .error e => (fs, .error e)
  | .ok t =>
    match t with
    | .screen =>
      (fs, .ok { severity := item.severity, logType := .screen, pfx := item.pfx })
    | .file =>
      match createLogDir fs (dirOf item.path) with
      | .error e => (fs, .error ("failed to create logging directory: " ++ e.message))
      | .ok fs1 =>
        match createLogFile fs1 item.path item.rotate (formatTimestamp now) with
        | .error e => (fs1, .error ("failed to create log file: " ++ e.message))
        | .ok fs2 =>
          (fs2, .ok { severity := item.severity, logType := .file, pfx := item.pfx })

/-- The setup loop of log.go:144-174: entries in order, append each built
logger, stop at the first failure.  The result carries the file-system
state, the logger sequence as left behind by the Go receiver, and the
returned error if any. -/
def setupLoop (now : DateTime) : FS → List Logger → List ConfigEntry → FS × List Logger × Option String
  | fs, acc, [] => (fs, acc, none)
  | fs, acc, item :: rest =>
    match buildLogger now fs item with
    | (fs2, .error e) => (fs2, acc, some e)
    | (fs2, .ok lg) => setupLoop now fs2 (acc ++ [lg]) rest

/-- log.go:139-177 `SetupLoggers`: reject an empty (or Go-nil) entry list
with the `unable to setup loggers` error, otherwise run the loop starting
from the current logger sequence `l`. -/
def SetupLoggers (now : DateTime) (fs : FS) (l : List Logger) (cfg : LogConfig) : FS × List Logger × Option String :=
  if cfg.loggers.isEmpty then (fs, l, some "unable to setup loggers")
  else setupLoop now fs l cfg.loggers

/-! ## String and formatter lemmas -/

lemma logIndex_eq (severity : LogSeverity) :
    logIndex severity = (severity / 10 + 65535) % 65536 := rfl

/-- The label index at the six severity constants, at 0 (uint16 wrap) and
at 70 (one past the table). -/
lemma logIndex_concrete :
    logIndex 10 = 0 ∧ logIndex 20 = 1 ∧ logIndex 30 = 2 ∧ logIndex 40 = 3 ∧
    logIndex 50 = 4 ∧ logIndex 60 = 5 ∧ logIndex 0 = 65535 ∧ logIndex 70 = 6 := by
  decide

/-- The label lookup at the six severity constants and at the two
out-of-range examples. -/
lemma getLogTypeString_concrete :
    getLogTypeString 10 = some "FATAL  " ∧ getLogTypeString 20 = some "ERROR  " ∧
    getLogTypeString 30 = some "WARNING" ∧ getLogTypeString 40 = some "INFO   " ∧
    getLogTypeString 50 = some "DEBUG  " ∧ getLogTypeString 60 = some "VERBOSE" ∧
    getLogTypeString 0 = none ∧ getLogTypeString 70 = none := by
  decide

/-- The label lookup also succeeds at severities strictly between the six
constants: at 15 the index 15/10 - 1 = 0 is in range and yields the FATAL
label. -/
lemma getLogTypeString_fifteen :
    getLogTypeString 15 = some "FATAL  " ∧ logIndex 15 = 0 := by
  decide

/-- Over the uint16 range of `LogSeverity`, the label index is in range of
the 6-entry table exactly for severities 10 through 69. -/
lemma logIndex_lt_iff (s : Nat) (h : s < 65536) :
    logIndex s < logStrings.length ↔ 10 ≤ s ∧ s ≤ 69 := by
  rw [logIndex_eq]
  show (s / 10 + 65535) % 65536 < 6 ↔ 10 ≤ s ∧ s ≤ 69
  omega

/- Keep the elaborator from unfolding the modulus arithmetic of `logIndex`
at symbolic severities; the lemmas above carry all concrete values. -/
attribute [irreducible] logIndex

lemma string_ext (a b : String) (h : a.data = b.data) : a = b := by
  cases a
  cases b
  exact congrArg String.mk h

lemma sprintfAux_cons_ne (c : Char) (rest : List Char) (args : List String)
    (h : ¬ c = '%') : sprintfAux (c :: rest) args = c :: sprintfAux rest args := by
  rw [sprintfAux.eq_def]
  simp [h]

lemma sprintfAux_append (s t : List Char) (args : List String) (h : '%' ∉ s) :
    sprintfAux (s ++ t) args = s ++ sprintfAux t args := by
  induction s with
  | nil => simp
  | cons c cs ih =>
    have hc : ¬ c = '%' := by
      intro he
      subst he
      exact h (List.mem_cons_self _ _)
    have hcs : '%' ∉ cs := fun hm => h (List.mem_cons_of_mem c hm)
    rw [List.cons_append, sprintfAux_cons_ne c _ _ hc, ih hcs, List.cons_append]

lemma sprintfAux_ss (a b : String) :
    sprintfAux ('%' :: 's' :: ' ' :: '%' :: 's' :: []) [a, b] = a.data ++ ' ' :: b.data := by
  simp [sprintfAux]

lemma sprintf_format_ss (a b : String) : sprintf "%s %s" [a, b] = a ++ " " ++ b := by
  apply string_ext
  show sprintfAux "%s %s".data [a, b] = ((a ++ " ") ++ b).data
  rw [String.data_append, String.data_append]
  have hd : "%s %s".data = '%' :: 's' :: ' ' :: '%' :: 's' :: [] := rfl
  rw [hd, sprintfAux_ss]
  simp

lemma sprintf_append_no_pct (a b : String) (args : List String) (h : '%' ∉ a.data) :
    sprintf (a ++ b) args = a ++ sprintf b args := by
  apply string_ext
  show sprintfAux (a ++ b).data args = (a ++ sprintf b args).data
  rw [String.data_append, String.data_append, sprintfAux_append _ _ _ h]
  rfl

/-! ## Emit lemmas -/

lemma mem_logStrings_of_getLogTypeString (s : LogSeverity) (lbl : String)
    (h : getLogTypeString s = some lbl) : lbl ∈ logStrings := by
  unfold getLogTypeString at h
  exact List.get?_mem h

lemma logStrings_no_pct : ∀ x ∈ logStrings, '%' ∉ x.data := by decide

lemma writeMessage_cons (lg : Logger) (rest : List Logger) (s : LogSeverity) (msg : String) :
    writeMessage (lg :: rest) s msg =
      if s ≤ lg.severity then
        match getLogTypeString s with
        | none => none
        | some lbl =>
          (writeMessage rest s msg).map
            (fun out => some (sprintf "%s %s" [lbl, msg]) :: out)
      else (writeMessage rest s msg).map (fun out => none :: out) := rfl

lemma writeMessagef_cons (lg : Logger) (rest : List Logger) (s : LogSeverity)
    (msg : String) (args : List String) :
    writeMessagef (lg :: rest) s msg args =
      if s ≤ lg.severity then
        match getLogTypeString s with
        | none => none
        | some lbl =>
          (writeMessagef rest s msg args).map
            (fun out => some (sprintf (sprintf "%s %s" [lbl, msg]) args) :: out)
      else (writeMessagef rest s msg args).map (fun out => none :: out) := rfl

/-- Closed form of `writeMessage` when the label lookup succeeds: each
logger of the sequence receives the line `label ++ " " ++ msg` exactly when
its threshold admits the severity, and the overall emit never fails. -/
lemma writeMessage_eq_map (loggers : List Logger) (s : LogSeverity) (msg lbl : String)
    (h : getLogTypeString s = some lbl) :
    writeMessage loggers s msg =
      some (loggers.map (fun lg => if s ≤ lg.severity then some (lbl ++ " " ++ msg) else none)) := by
  induction loggers with
  | nil => rfl
  | cons lg rest ih =>
    rw [writeMessage_cons]
    by_cases hle : s ≤ lg.severity <;>
      simp [h, hle, ih, sprintf_format_ss]

/-- Closed form of `writeMessagef` when the label lookup succeeds. -/
lemma writeMessagef_eq_map (loggers : List Logger) (s : LogSeverity) (msg lbl : String)
    (args : List String) (h : getLogTypeString s = some lbl) :
    writeMessagef loggers s msg args =
      some (loggers.map
        (fun lg => if s ≤ lg.severity then some (sprintf (lbl ++ " " ++ msg) args) else none)) := by
  induction loggers with
  | nil => rfl
  | cons lg rest ih =>
    rw [writeMessagef_cons]
    by_cases hle : s ≤ lg.severity <;>
      simp [h, hle, ih, sprintf_format_ss]

/-- The formatted emit path agrees with formatting first and emitting the
result through the plain path. -/
lemma writeMessagef_eq_writeMessage (loggers : List Logger) (s : LogSeverity)
    (msg : String) (args : List String) :
    writeMessagef loggers s msg args = writeMessage loggers s (sprintf msg args) := by
  cases hgt : getLogTypeString s with
  | none =>
    induction loggers with
    | nil => rfl
    | cons lg rest ih =>
      rw [writeMessage_cons, writeMessagef_cons]
      by_cases hle : s ≤ lg.severity <;>
        simp [hgt, hle, ih]
  | some lbl =>
    have hmem := mem_logStrings_of_getLogTypeString s lbl hgt
    have hnp : '%' ∉ lbl.data := logStrings_no_pct lbl hmem
    have hnp2 : '%' ∉ (lbl ++ " ").data := by
      rw [String.data_append]
      intro hmm
      rcases List.mem_append.mp hmm with h1 | h2
      · exact hnp h1
      · exact absurd h2 (by decide)
    have key : sprintf (lbl ++ " " ++ msg) args = lbl ++ " " ++ sprintf msg args :=
      sprintf_append_no_pct (lbl ++ " ") msg args hnp2
    rw [writeMessagef_eq_map loggers s msg lbl args hgt,
      writeMessage_eq_map loggers s (sprintf msg args) lbl hgt, key]

/-! ## File-system lemmas -/

lemma lookupL_setFile_self (files : List (String × String)) (p v : String) :
    lookupL (setFile files p v) p = some v := by
  simp [lookupL, setFile, List.find?_cons]

lemma find?_filter_ne (files : List (String × String)) (p q : String) (h : ¬ q = p) :
    (files.filter (fun e => e.1 != p)).find? (fun e => e.1 == q) =
      files.find? (fun e => e.1 == q) := by
  induction files with
  | nil => rfl
  | cons e es ih =>
    have hpq : ¬ p = q := fun hx => h hx.symm
    by_cases he : e.1 = p
    · have hq : ¬ e.1 = q := fun hx => h (hx.symm.trans he)
      simp [List.filter_cons, he, List.find?_cons, hq, hpq, h, ih]
    · by_cases hq : e.1 = q <;>
        simp [List.filter_cons, he, List.find?_cons, hq, hpq, h, ih]

lemma lookupL_setFile_ne (files : List (String × String)) (p v q : String) (h : ¬ q = p) :
    lookupL (setFile files p v) q = lookupL files q := by
  have hpq : ¬ p = q := fun hx => h hx.symm
  simp [lookupL, setFile, List.find?_cons, hpq, find?_filter_ne files p q h]

lemma lookupL_filter_ne (files : List (String × String)) (p q : String) (h : ¬ q = p) :
    lookupL (files.filter (fun e => e.1 != p)) q = lookupL files q := by
  simp [lookupL, find?_filter_ne files p q h]

lemma countKey_cons (e : String × String) (files : List (String × String)) (q : String) :
    countKey (e :: files) q = countKey files q + (if e.1 == q then 1 else 0) := by
  simp [countKey, List.countP_cons]

lemma countKey_filter_same (files : List (String × String)) (p : String) :
    countKey (files.filter (fun e => e.1 != p)) p = 0 := by
  rw [countKey, List.countP_eq_zero]
  intro a ha
  have hne := (List.mem_filter.mp ha).2
  simp only [bne_iff_ne, ne_eq] at hne
  simp [hne]

lemma countKey_filter_ne (files : List (String × String)) (p q : String) (h : ¬ q = p) :
    countKey (files.filter (fun e => e.1 != p)) q = countKey files q := by
  induction files with
  | nil => rfl
  | cons e es ih =>
    have hpq : ¬ p = q := fun hx => h hx.symm
    by_cases he : e.1 = p
    · have hq : ¬ e.1 = q := fun hx => h (hx.symm.trans he)
      simp [List.filter_cons, he, countKey_cons, hq, hpq, h, ih]
    · by_cases hq : e.1 = q <;>
        simp [List.filter_cons, he, countKey_cons, hq, hpq, h, ih]

lemma countKey_setFile_self (files : List (String × String)) (p v : String) :
    countKey (setFile files p v) p = 1 := by
  simp [setFile, countKey_cons, countKey_filter_same]

lemma countKey_setFile_ne (files : List (String × String)) (p v q : String) (h : ¬ q = p) :
    countKey (setFile files p v) q = countKey files q := by
  have hpq : ¬ p = q := fun hx => h hx.symm
  simp [setFile, countKey_cons, hpq, countKey_filter_ne files p q h]

lemma create_eq_ok (fs fs2 : FS) (p : String) (h : fs.create p = .ok fs2) :
    p ∉ fs.createFault ∧ fs2 = { fs with files := setFile fs.files p "" } := by
  unfold FS.create at h
  by_cases hc : p ∈ fs.createFault
  · simp [hc] at h
  · simp [hc] at h
    exact ⟨hc, h.symm⟩

lemma create_ok_of_no_fault (fs : FS) (p : String) (hc : p ∉ fs.createFault) :
    fs.create p = .ok { fs with files := setFile fs.files p "" } := by
  simp [FS.create, hc]

lemma fileExists_of_lookup (fs : FS) (p c : String) (hl : fs.lookup p = some c) :
    fs.fileExists p = true := by
  unfold FS.lookup lookupL at hl
  cases hfind : fs.files.find? (fun e => e.1 == p) with
  | none => rw [hfind] at hl; cases hl
  | some e =>
    have hpred := List.find?_some hfind
    have hmem := List.mem_of_find?_eq_some hfind
    exact List.any_eq_true.mpr ⟨e, hmem, hpred⟩

lemma stat_ok_of_file (fs : FS) (p c : String)
    (hsf : p ∉ fs.statFault) (hl : fs.lookup p = some c) :
    fs.stat p = .ok () := by
  simp [FS.stat, hsf, FS.pathExists, fileExists_of_lookup fs p c hl]

lemma rename_ok (fs : FS) (old new c : String)
    (hf : (old, new) ∉ fs.renameFault) (hl : fs.lookup old = some c) :
    fs.rename old new =
      .ok { fs with files := setFile (fs.files.filter (fun e => e.1 != old)) new c } := by
  simp [FS.rename, hf, hl]

lemma createLogFile_ok_lookup (fs fs2 : FS) (p : String) (rotate : Bool) (ts : String)
    (h : createLogFile fs p rotate ts = .ok fs2) : fs2.lookup p = some "" := by
  unfold createLogFile at h
  cases hst : fs.stat p with
  | error err =>
    rw [hst] at h
    by_cases hne : err.isNotExist
    · simp only [hne, if_true] at h
      obtain ⟨-, rfl⟩ := create_eq_ok fs fs2 p h
      simp [FS.lookup, lookupL_setFile_self]
    · simp [hne] at h
  | ok u =>
    rw [hst] at h
    by_cases hr : rotate
    · subst hr
      simp only [if_true] at h
      cases hrn : fs.rename p (p ++ "." ++ ts) with
      | error e => simp [hrn] at h
      | ok fs1 =>
        simp only [hrn] at h
        obtain ⟨-, rfl⟩ := create_eq_ok fs1 fs2 p h
        simp [FS.lookup, lookupL_setFile_self]
    · simp only [hr, if_false, Bool.false_eq_true] at h
      obtain ⟨-, rfl⟩ := create_eq_ok fs fs2 p h
      simp [FS.lookup, lookupL_setFile_self]

lemma createLogFile_no_rotate (fs : FS) (p c ts : String)
    (hl : fs.lookup p = some c) (hsf : p ∉ fs.statFault) (hcf : p ∉ fs.createFault) :
    createLogFile fs p false ts = .ok { fs with files := setFile fs.files p "" } := by
  unfold createLogFile
  rw [stat_ok_of_file fs p c hsf hl]
  simp [create_ok_of_no_fault fs p hcf]

lemma createLogFile_rotate_ok (fs : FS) (p c ts : String)
    (hl : fs.lookup p = some c)
    (hsf : p ∉ fs.statFault)
    (hrf : (p, p ++ "." ++ ts) ∉ fs.renameFault)
    (hcf : p ∉ fs.createFault) :
    createLogFile fs p true ts =
      .ok { fs with
            files := setFile (setFile (fs.files.filter (fun e => e.1 != p)) (p ++ "." ++ ts) c) p "" } := by
  unfold createLogFile
  rw [stat_ok_of_file fs p c hsf hl, rename_ok fs p (p ++ "." ++ ts) c hrf hl]
  exact create_ok_of_no_fault
    { fs with files := setFile (fs.files.filter (fun e => e.1 != p)) (p ++ "." ++ ts) c } p hcf

lemma createLogFile_rotate_err (fs : FS) (p c ts : String)
    (hl : fs.lookup p = some c)
    (hsf : p ∉ fs.statFault)
    (hrf : (p, p ++ "." ++ ts) ∈ fs.renameFault) :
    createLogFile fs p true ts = .error (.renameErr p (p ++ "." ++ ts)) := by
  unfold createLogFile
  rw [stat_ok_of_file fs p c hsf hl]
  simp [FS.rename, hrf]

/-! ## Timestamp lemmas -/

lemma digitChar_isDigit (k : Nat) (h : k < 10) : (digitChar k).isDigit = true := by
  interval_cases k <;> decide

lemma formatTimestamp_data (t : DateTime) :
    (formatTimestamp t).data = pad4 t.year ++ pad2 t.month ++ pad2 t.day ++
      pad2 t.hour ++ pad2 t.minute ++ pad2 t.second := rfl

lemma formatTimestamp_length (t : DateTime) : (formatTimestamp t).length = 14 := by
  show (formatTimestamp t).data.length = 14
  rw [formatTimestamp_data]
  simp [pad4, pad2]

lemma formatTimestamp_digits (t : DateTime) :
    ∀ ch ∈ (formatTimestamp t).data, ch.isDigit = true := by
  intro ch hch
  rw [formatTimestamp_data] at hch
  simp [pad4, pad2] at hch
  rcases hch with rfl | rfl | rfl | rfl | rfl | rfl | rfl | rfl | rfl | rfl | rfl | rfl | rfl | rfl <;>
    exact digitChar_isDigit _ (Nat.mod_lt _ (by norm_num))

/-! ## Setup lemmas -/

lemma setupLoop_nil (now : DateTime) (fs : FS) (acc : List Logger) :
    setupLoop now fs acc [] = (fs, acc, none) := rfl

lemma setupLoop_cons_err (now : DateTime) (fs fs2 : FS) (acc : List Logger)
    (item : ConfigEntry) (rest : List ConfigEntry) (e : String)
    (h : buildLogger now fs item = (fs2, .error e)) :
    setupLoop now fs acc (item :: rest) = (fs2, acc, some e) := by
  show (match buildLogger now fs item with
        | (fs2, .error e) => (fs2, acc, some e)
        | (fs2, .ok lg) => setupLoop now fs2 (acc ++ [lg]) rest) = (fs2, acc, some e)
  rw [h]

lemma setupLoop_cons_ok (now : DateTime) (fs fs2 : FS) (acc : List Logger)
    (item : ConfigEntry) (rest : List ConfigEntry) (lg : Logger)
    (h : buildLogger now fs item = (fs2, .ok lg)) :
    setupLoop now fs acc (item :: rest) = setupLoop now fs2 (acc ++ [lg]) rest := by
  show (match buildLogger now fs item with
        | (fs2, .error e) => (fs2, acc, some e)
        | (fs2, .ok lg) => setupLoop now fs2 (acc ++ [lg]) rest) =
      setupLoop now fs2 (acc ++ [lg]) rest
  rw [h]

lemma setupLoop_append_ok (now : DateTime) (rest : List ConfigEntry) :
    ∀ (pre : List ConfigEntry) (fs : FS) (acc : List Logger) (fs1 : FS) (acc1 : List Logger),
      setupLoop now fs acc pre = (fs1, acc1, none) →
      setupLoop now fs acc (pre ++ rest) = setupLoop now fs1 acc1 rest := by
  intro pre
  induction pre with
  | nil =>
    intro fs acc fs1 acc1 h
    rw [setupLoop_nil] at h
    injection h with h1 h2
    injection h2 with h2 h3
    subst h1
    subst h2
    rfl
  | cons item pre ih =>
    intro fs acc fs1 acc1 h
    cases hb : buildLogger now fs item with
    | mk fs2 exc =>
      cases exc with
      | error e =>
        rw [setupLoop_cons_err now fs fs2 acc item pre e hb] at h
        simp at h
      | ok lg =>
        rw [setupLoop_cons_ok now fs fs2 acc item pre lg hb] at h
        rw [List.cons_append, setupLoop_cons_ok now fs fs2 acc item (pre ++ rest) lg hb]
        exact ih fs2 (acc ++ [lg]) fs1 acc1 h

lemma setupLoop_extends (now : DateTime) (entries : List ConfigEntry) :
    ∀ (fs : FS) (acc : List Logger),
      ∃ built, (setupLoop now fs acc entries).2.1 = acc ++ built := by
  induction entries with
  | nil =>
    intro fs acc
    exact ⟨[], by rw [setupLoop_nil]; simp⟩
  | cons item rest ih =>
    intro fs acc
    cases hb : buildLogger now fs item with
    | mk fs2 exc =>
      cases exc with
      | error e =>
        exact ⟨[], by rw [setupLoop_cons_err now fs fs2 acc item rest e hb]; simp⟩
      | ok lg =>
        obtain ⟨built, hbuilt⟩ := ih fs2 (acc ++ [lg])
        refine ⟨lg :: built, ?_⟩
        rw [setupLoop_cons_ok now fs fs2 acc item rest lg hb, hbuilt]
        simp

/-! ## Claim theorems -/

/-- C1: for every dispatcher sequence and every emit whose severity has a
label (in particular the six public severities), each sink of the sequence
has the formatted line written to its underlying target if and only if the
sink threshold `T` satisfies `severity ≤ T`; when no sink qualifies the
emit still returns `some` output (all entries `none`): the message is
silently dropped with no error. -/
theorem c1_emit_iff_threshold (loggers : List Logger) (s : LogSeverity) (msg lbl : String)
    (h : getLogTypeString s = some lbl) :
    writeMessage loggers s msg =
      some (loggers.map (fun lg => if s ≤ lg.severity then some (lbl ++ " " ++ msg) else none)) :=
  writeMessage_eq_map loggers s msg lbl h

theorem c1_emit_iff_threshold_witness :
    writeMessage [⟨30, .screen, ""⟩, ⟨10, .screen, ""⟩] 20 "boom" =
      some [some ("ERROR  " ++ " " ++ "boom"), none] := by
  rw [c1_emit_iff_threshold [⟨30, .screen, ""⟩, ⟨10, .screen, ""⟩] 20 "boom" "ERROR  "
    getLogTypeString_concrete.2.1]
  decide

/-- C2: every successful `createLogFile` run leaves a fresh empty file at
the target path whatever the rotate flag was; and with rotate=false and a
pre-existing file the call succeeds, truncates the file at the original
path and changes no other path (in particular no backup file appears). -/
theorem c2_create_always_fresh :
    (∀ (fs fs2 : FS) (p : String) (rotate : Bool) (ts : String),
      createLogFile fs p rotate ts = .ok fs2 → fs2.lookup p = some "") ∧
    (∀ (fs : FS) (p c ts : String),
      fs.lookup p = some c → p ∉ fs.statFault → p ∉ fs.createFault →
      createLogFile fs p false ts = .ok { fs with files := setFile fs.files p "" } ∧
      FS.lookup { fs with files := setFile fs.files p "" } p = some "" ∧
      ∀ q : String, ¬ q = p →
        FS.lookup { fs with files := setFile fs.files p "" } q = fs.lookup q) := by
  constructor
  · exact fun fs fs2 p rotate ts h => createLogFile_ok_lookup fs fs2 p rotate ts h
  · intro fs p c ts hl hsf hcf
    refine ⟨createLogFile_no_rotate fs p c ts hl hsf hcf, ?_, ?_⟩
    · show lookupL (setFile fs.files p "") p = some ""
      exact lookupL_setFile_self fs.files p ""
    · intro q hq
      show lookupL (setFile fs.files p "") q = lookupL fs.files q
      exact lookupL_setFile_ne fs.files p "" q hq

theorem c2_create_always_fresh_witness :
    FS.lookup ⟨[("d/l", "")], [], [], [], [], []⟩ "d/l" = some "" ∧
    FS.lookup ⟨[("d/l", "")], [], [], [], [], []⟩ "d/l.bak" = none := by
  have h2 := c2_create_always_fresh.2 ⟨[("d/l", "old")], [], [], [], [], []⟩ "d/l" "old" "x"
    (by decide) (by decide) (by decide)
  exact ⟨h2.2.1, (h2.2.2 "d/l.bak" (by decide)).trans (by decide)⟩

/-- C3: with rotate=true and a file already at the path, setup renames the
old file to the original path plus a dot and the "YYYYMMDDhhmmss" stamp (a
14 digit string), leaving exactly one such backup entry, and puts a fresh
empty file at the original path; a failing rename is propagated as the
result with no silent fallback. -/
theorem c3_rotate_backup :
    (∀ (fs : FS) (p c : String) (t : DateTime),
      fs.lookup p = some c → p ∉ fs.statFault →
      (p, p ++ "." ++ formatTimestamp t) ∉ fs.renameFault → p ∉ fs.createFault →
      ∃ fs2, createLogFile fs p true (formatTimestamp t) = .ok fs2 ∧
        fs2.lookup p = some "" ∧
        fs2.lookup (p ++ "." ++ formatTimestamp t) = some c ∧
        countKey fs2.files (p ++ "." ++ formatTimestamp t) = 1 ∧
        (formatTimestamp t).length = 14 ∧
        (∀ ch ∈ (formatTimestamp t).data, ch.isDigit = true)) ∧
    (∀ (fs : FS) (p c : String) (t : DateTime),
      fs.lookup p = some c → p ∉ fs.statFault →
      (p, p ++ "." ++ formatTimestamp t) ∈ fs.renameFault →
      createLogFile fs p true (formatTimestamp t) =
        .error (.renameErr p (p ++ "." ++ formatTimestamp t))) := by
  constructor
  · intro fs p c t hl hsf hrf hcf
    have hbp : ¬ (p ++ "." ++ formatTimestamp t) = p := by
      intro he
      have hlen := congrArg String.length he
      rw [String.length_append, String.length_append, formatTimestamp_length] at hlen
      omega
    refine ⟨_, createLogFile_rotate_ok fs p c (formatTimestamp t) hl hsf hrf hcf, ?_, ?_, ?_,
      formatTimestamp_length t, formatTimestamp_digits t⟩
    · show lookupL (setFile (setFile (fs.files.filter (fun e => e.1 != p))
        (p ++ "." ++ formatTimestamp t) c) p "") p = some ""
      exact lookupL_setFile_self _ p ""
    · show lookupL (setFile (setFile (fs.files.filter (fun e => e.1 != p))
        (p ++ "." ++ formatTimestamp t) c) p "") (p ++ "." ++ formatTimestamp t) = some c
      rw [lookupL_setFile_ne _ p "" _ hbp]
      exact lookupL_setFile_self _ _ c
    · show countKey (setFile (setFile (fs.files.filter (fun e => e.1 != p))
        (p ++ "." ++ formatTimestamp t) c) p "") (p ++ "." ++ formatTimestamp t) = 1
      rw [countKey_setFile_ne _ p "" _ hbp]
      exact countKey_setFile_self _ _ c
  · intro fs p c t hl hsf hrf
    exact createLogFile_rotate_err fs p c (formatTimestamp t) hl hsf hrf

theorem c3_rotate_backup_witness :
    ∃ fs2, createLogFile ⟨[("d/l", "old")], [], [], [], [], []⟩ "d/l" true
        (formatTimestamp ⟨2026, 1, 2, 3, 4, 5⟩) = .ok fs2 ∧
      fs2.lookup "d/l" = some "" ∧
      fs2.lookup ("d/l" ++ "." ++ formatTimestamp ⟨2026, 1, 2, 3, 4, 5⟩) = some "old" ∧
      countKey fs2.files ("d/l" ++ "." ++ formatTimestamp ⟨2026, 1, 2, 3, 4, 5⟩) = 1 ∧
      (formatTimestamp ⟨2026, 1, 2, 3, 4, 5⟩).length = 14 ∧
      (∀ ch ∈ (formatTimestamp ⟨2026, 1, 2, 3, 4, 5⟩).data, ch.isDigit = true) :=
  c3_rotate_backup.1 ⟨[("d/l", "old")], [], [], [], [], []⟩ "d/l" "old" ⟨2026, 1, 2, 3, 4, 5⟩
    (by decide) (by decide) (by decide) (by decide)

/-- C4: an empty (or Go-nil) logger list makes setup fail with the
no-sinks error before anything is built: the file system and the logger
sequence come back unchanged. -/
theorem c4_empty_config_fails (now : DateTime) (fs : FS) (l : List Logger) :
    SetupLoggers now fs l ⟨[]⟩ = (fs, l, some "unable to setup loggers") := rfl

/-- C5: an entry whose lowercased kind is neither "file" nor "screen"
makes the iteration fail with the invalid-kind error that names the
offending string and leaves the file system untouched, while any string
lowercasing to "file" or "screen" passes kind resolution. -/
theorem c5_invalid_kind (now : DateTime) (fs : FS) (item : ConfigEntry)
    (h1 : ¬ lowerString item.logType = "file") (h2 : ¬ lowerString item.logType = "screen") :
    buildLogger now fs item = (fs, .error (item.logType ++ " is invalid log type")) ∧
    (∀ s : String, lowerString s = "file" → resolveKind s = .ok .file) ∧
    (∀ s : String, lowerString s = "screen" → resolveKind s = .ok .screen) := by
  have hres : resolveKind item.logType = .error (item.logType ++ " is invalid log type") := by
    unfold resolveKind
    split
    next heq => exact absurd heq h1
    next heq => exact absurd heq h2
    next => rfl
  refine ⟨?_, ?_, ?_⟩
  · unfold buildLogger
    rw [hres]
  · intro s hs
    unfold resolveKind
    rw [hs]
    rfl
  · intro s hs
    unfold resolveKind
    rw [hs]
    rfl

theorem c5_invalid_kind_witness :
    buildLogger ⟨2026, 1, 1, 0, 0, 0⟩ ⟨[], [], [], [], [], []⟩ ⟨"socket", 40, false, "", ""⟩ =
      (⟨[], [], [], [], [], []⟩, .error ("socket" ++ " is invalid log type")) ∧
    resolveKind "FILE" = .ok .file ∧ resolveKind "Screen" = .ok .screen := by
  have h := c5_invalid_kind ⟨2026, 1, 1, 0, 0, 0⟩ ⟨[], [], [], [], [], []⟩
    ⟨"socket", 40, false, "", ""⟩ (by decide) (by decide)
  exact ⟨h.1, h.2.1 "FILE" (by decide), h.2.2 "Screen" (by decide)⟩

/-- C6: entries are processed in order; when the entry after the prefix
`pre` fails, setup returns that error at once with the rest of the list
never reaching the loop (the result does not depend on `rest`), the sinks
built from `pre` stay appended to the sequence, and the returned file
system is the one the failed iteration left behind: nothing is rolled
back. -/
theorem c6_first_failure_no_rollback (now : DateTime) (fs fs1 fs2 : FS)
    (l acc1 : List Logger) (pre : List ConfigEntry) (item : ConfigEntry)
    (rest : List ConfigEntry) (e : String)
    (hpre : setupLoop now fs l pre = (fs1, acc1, none))
    (hitem : buildLogger now fs1 item = (fs2, .error e)) :
    SetupLoggers now fs l ⟨pre ++ item :: rest⟩ = (fs2, acc1, some e) ∧
    ∃ built, acc1 = l ++ built := by
  constructor
  · have hne : (pre ++ item :: rest).isEmpty = false := by
      cases pre <;> rfl
    show (if (pre ++ item :: rest).isEmpty then (fs, l, some "unable to setup loggers")
          else setupLoop now fs l (pre ++ item :: rest)) = (fs2, acc1, some e)
    rw [hne]
    show setupLoop now fs l (pre ++ item :: rest) = (fs2, acc1, some e)
    rw [setupLoop_append_ok now (item :: rest) pre fs l fs1 acc1 hpre,
      setupLoop_cons_err now fs1 fs2 acc1 item rest e hitem]
  · obtain ⟨built, hbuilt⟩ := setupLoop_extends now pre fs l
    rw [hpre] at hbuilt
    exact ⟨built, hbuilt⟩

theorem c6_first_failure_no_rollback_witness :
    SetupLoggers ⟨2026, 1, 1, 0, 0, 0⟩ ⟨[], [], [], [], [], []⟩ []
        ⟨[⟨"screen", 60, false, "", ""⟩, ⟨"socket", 40, false, "", ""⟩,
          ⟨"file", 30, false, "a/b", ""⟩]⟩ =
      (⟨[], [], [], [], [], []⟩, [⟨60, .screen, ""⟩],
        some ("socket" ++ " is invalid log type")) :=
  (c6_first_failure_no_rollback ⟨2026, 1, 1, 0, 0, 0⟩ ⟨[], [], [], [], [], []⟩
    ⟨[], [], [], [], [], []⟩ ⟨[], [], [], [], [], []⟩ [] [⟨60, .screen, ""⟩]
    [⟨"screen", 60, false, "", ""⟩] ⟨"socket", 40, false, "", ""⟩
    [⟨"file", 30, false, "a/b", ""⟩] ("socket" ++ " is invalid log type")
    (by decide) (by decide)).1

/-- C7: the label table pairs each of the six severities with its fixed
7-character uppercase tag, every label is exactly 7 characters wide, and a
qualifying sink receives exactly the line `label ++ " " ++ msg`. -/
theorem c7_line_format :
    getLogTypeString Fatal = some "FATAL  " ∧
    getLogTypeString Error = some "ERROR  " ∧
    getLogTypeString Warning = some "WARNING" ∧
    getLogTypeString Information = some "INFO   " ∧
    getLogTypeString Debug = some "DEBUG  " ∧
    getLogTypeString Verbose = some "VERBOSE" ∧
    (∀ lbl ∈ logStrings, lbl.length = 7) ∧
    (∀ (lg : Logger) (s : LogSeverity) (msg lbl : String),
      getLogTypeString s = some lbl → s ≤ lg.severity →
      writeMessage [lg] s msg = some [some (lbl ++ " " ++ msg)]) := by
  obtain ⟨g10, g20, g30, g40, g50, g60, -, -⟩ := getLogTypeString_concrete
  refine ⟨g10, g20, g30, g40, g50, g60, by decide, ?_⟩
  intro lg s msg lbl h hle
  rw [writeMessage_eq_map [lg] s msg lbl h]
  simp [hle]

theorem c7_line_format_witness :
    writeMessage [⟨60, .screen, "app:"⟩] 10 "boom" =
      some [some ("FATAL  " ++ " " ++ "boom")] :=
  c7_line_format.2.2.2.2.2.2.2 ⟨60, .screen, "app:"⟩ 10 "boom" "FATAL  "
    getLogTypeString_concrete.1 (by decide)

/-- C8: for every logger sequence, severity, template and argument list,
the formatted emit writes exactly what the plain emit writes after the
template has been formatted first; the label is prepended outside the
user-controlled format string. -/
theorem c8_formatted_refines_plain (loggers : List Logger) (s : LogSeverity)
    (msg : String) (args : List String) :
    writeMessagef loggers s msg args = writeMessage loggers s (sprintf msg args) :=
  writeMessagef_eq_writeMessage loggers s msg args

/-- C9 counterexample: severity 15 is a `LogSeverity` value that is none
of the six public constants, yet the label lookup at 15 computes index
15/10 - 1 = 0, which is in bounds of the 6-entry table and succeeds — so
it is false that the lookup is out of bounds at every `LogSeverity` value
other than the six constants. -/
theorem c9_label_index_counterexample :
    ¬ ((15 : LogSeverity) = 10 ∨ (15 : LogSeverity) = 20 ∨ (15 : LogSeverity) = 30 ∨
       (15 : LogSeverity) = 40 ∨ (15 : LogSeverity) = 50 ∨ (15 : LogSeverity) = 60) ∧
    logIndex 15 < logStrings.length ∧ getLogTypeString 15 = some "FATAL  " := by
  refine ⟨by decide, ?_, getLogTypeString_fifteen.1⟩
  rw [getLogTypeString_fifteen.2]
  decide

/-- C9 (amended): the label lookup indexes the 6-entry table at the uint16
value of `severity/10 - 1`; the index is in range at the six public
severities, so no public emit of `Log` can panic there; and over the whole
uint16 range of `LogSeverity` the index is in bounds exactly for
severities 10 through 69 — in particular 0 (which wraps to 65535) and 70
(index 6) fall outside the table, while values such as 15 do not. -/
theorem c9_label_index_safety :
    logIndex Fatal < logStrings.length ∧ logIndex Error < logStrings.length ∧
    logIndex Warning < logStrings.length ∧ logIndex Information < logStrings.length ∧
    logIndex Debug < logStrings.length ∧ logIndex Verbose < logStrings.length ∧
    logStrings.length ≤ logIndex 0 ∧ logStrings.length ≤ logIndex 70 ∧
    (∀ (l : Log) (msg : String),
      (l.Fatal msg).isSome = true ∧ (l.Error msg).isSome = true ∧
      (l.Warning msg).isSome = true ∧ (l.Info msg).isSome = true ∧
      (l.Debug msg).isSome = true ∧ (l.Verbose msg).isSome = true ∧
      (l.Errore msg).isSome = true) ∧
    (∀ (l : Log) (msg : String) (args : List String),
      (l.Fatalf msg args).isSome = true ∧ (l.Errorf msg args).isSome = true ∧
      (l.Warningf msg args).isSome = true ∧ (l.Infof msg args).isSome = true ∧
      (l.Debugf msg args).isSome = true ∧ (l.Verbosef msg args).isSome = true) ∧
    (∀ s : LogSeverity, s < 65536 →
      (logIndex s < logStrings.length ↔ 10 ≤ s ∧ s ≤ 69)) := by
  obtain ⟨i10, i20, i30, i40, i50, i60, i0, i70⟩ := logIndex_concrete
  obtain ⟨g10, g20, g30, g40, g50, g60, -, -⟩ := getLogTypeString_concrete
  refine ⟨?_, ?_, ?_, ?_, ?_, ?_, ?_, ?_, ?_, ?_, ?_⟩
  · show logIndex 10 < logStrings.length
    rw [i10]
    decide
  · show logIndex 20 < logStrings.length
    rw [i20]
    decide
  · show logIndex 30 < logStrings.length
    rw [i30]
    decide
  · show logIndex 40 < logStrings.length
    rw [i40]
    decide
  · show logIndex 50 < logStrings.length
    rw [i50]
    decide
  · show logIndex 60 < logStrings.length
    rw [i60]
    decide
  · rw [i0]
    decide
  · rw [i70]
    decide
  · intro l msg
    refine ⟨?_, ?_, ?_, ?_, ?_, ?_, ?_⟩
    · show (writeMessage l.loggers 10 msg).isSome = true
      rw [writeMessage_eq_map l.loggers 10 msg "FATAL  " g10]
      rfl
    · show (writeMessage l.loggers 20 msg).isSome = true
      rw [writeMessage_eq_map l.loggers 20 msg "ERROR  " g20]
      rfl
    · show (writeMessage l.loggers 30 msg).isSome = true
      rw [writeMessage_eq_map l.loggers 30 msg "WARNING" g30]
      rfl
    · show (writeMessage l.loggers 40 msg).isSome = true
      rw [writeMessage_eq_map l.loggers 40 msg "INFO   " g40]
      rfl
    · show (writeMessage l.loggers 50 msg).isSome = true
      rw [writeMessage_eq_map l.loggers 50 msg "DEBUG  " g50]
      rfl
    · show (writeMessage l.loggers 60 msg).isSome = true
      rw [writeMessage_eq_map l.loggers 60 msg "VERBOSE" g60]
      rfl
    · show (writeMessage l.loggers 20 msg).isSome = true
      rw [writeMessage_eq_map l.loggers 20 msg "ERROR  " g20]
      rfl
  · intro l msg args
    refine ⟨?_, ?_, ?_, ?_, ?_, ?_⟩
    · show (writeMessagef l.loggers 10 msg args).isSome = true
      rw [writeMessagef_eq_map l.loggers 10 msg "FATAL  " args g10]
      rfl
    · show (writeMessagef l.loggers 20 msg args).isSome = true
      rw [writeMessagef_eq_map l.loggers 20 msg "ERROR  " args g20]
      rfl
    · show (writeMessagef l.loggers 30 msg args).isSome = true
      rw [writeMessagef_eq_map l.loggers 30 msg "WARNING" args g30]
      rfl
    · show (writeMessagef l.loggers 40 msg args).isSome = true
      rw [writeMessagef_eq_map l.loggers 40 msg "INFO   " args g40]
      rfl
    · show (writeMessagef l.loggers 50 msg args).isSome = true
      rw [writeMessagef_eq_map l.loggers 50 msg "DEBUG  " args g50]
      rfl
    · show (writeMessagef l.loggers 60 msg args).isSome = true
      rw [writeMessagef_eq_map l.loggers 60 msg "VERBOSE" args g60]
      rfl
  · intro s hs
    exact logIndex_lt_iff s hs

theorem c9_label_index_safety_witness :
    logIndex 15 < logStrings.length ↔ 10 ≤ (15 : LogSeverity) ∧ (15 : LogSeverity) ≤ 69 :=
  c9_label_index_safety.2.2.2.2.2.2.2.2.2.2 15 (by decide)

/-- C10: when stating the log directory fails with an error that is not a
notExist error (for example permission denied), `createLogDir` returns
success with the file system untouched: the stat error is swallowed and
setup proceeds to file creation. -/
theorem c10_stat_error_swallowed (fs : FS) (p : String) (h : p ∈ fs.statFault) :
    createLogDir fs p = .ok fs := by
  simp [createLogDir, FS.stat, h, FsErr.isNotExist]

theorem c10_stat_error_swallowed_witness :
    createLogDir ⟨[], [], ["d"], [], [], []⟩ "d" = .ok ⟨[], [], ["d"], [], [], []⟩ :=
  c10_stat_error_swallowed ⟨[], [], ["d"], [], [], []⟩ "d" (by decide)

end GoLogging
